import Mathlib

/-!
Shallow embedding of the browser lobby / session-bootstrap layer of the
ascii-bomb-ecs-mp repository (web/index.js, plus the generated binding
declaration file), together with theorems settling the specification
claims about it.

The embedding models:
  * JS numbers as produced by parseInt (an integer or NaN);
  * the string helpers the code uses (trim, the includes substring test,
    the four-digit room-id regular expression, parseInt itself);
  * the startGame handler as a pure function from the form state to the
    ordered list of observable effects it performs (alerts, console logs,
    DOM mutations, and the final call into the wasm entry point);
  * the try/catch around run() in start_wasm as a function from the
    outcome of run() to the list of observable effects;
  * the declared signature of the wasm entry point start_game from the
    generated TypeScript declaration file.
-/

/-- A JS number as produced by parseInt: either NaN or an integer. -/
inductive JSNum where
  | nan : JSNum
  | int : Int → JSNum
deriving DecidableEq, Repr

/-- JS comparison n < b where n may be NaN (NaN compares false). -/
def jsLt : JSNum → Int → Bool
  | JSNum.nan, _ => false
  | JSNum.int a, b => a < b

/-- JS comparison n > b where n may be NaN (NaN compares false). -/
def jsGt : JSNum → Int → Bool
  | JSNum.nan, _ => false
  | JSNum.int a, b => b < a

/-- String rendering of a JS number, as used in string concatenation. -/
def jsNumToString : JSNum → String
  | JSNum.nan => "NaN"
  | JSNum.int i => toString i

/-- The WhiteSpace and LineTerminator characters recognized by the JS
trim and parseInt operations. -/
def jsIsWhitespace (c : Char) : Bool :=
  c = ' ' || c = '\t' || c = '\n' || c = '\x0b' || c = '\x0c' || c = '\r' ||
  c = '\u00A0' || c = '\u1680' || ('\u2000' ≤ c && c ≤ '\u200A') ||
  c = '\u2028' || c = '\u2029' || c = '\u202F' || c = '\u205F' ||
  c = '\u3000' || c = '\uFEFF'

/-- Drop the JS whitespace from both ends of a character list. -/
def jsTrimChars (cs : List Char) : List Char :=
  ((cs.dropWhile jsIsWhitespace).reverse.dropWhile jsIsWhitespace).reverse

/-- The JS String.prototype.trim operation. -/
def jsTrim (s : String) : String :=
  String.mk (jsTrimChars s.data)

/-- Does the first list start with the second list? -/
def listStartsWith : List Char → List Char → Bool
  | _, [] => true
  | [], _ :: _ => false
  | c :: cs, p :: ps => c = p && listStartsWith cs ps

/-- Does the first list contain the second as a contiguous subsequence? -/
def listContainsSeq : List Char → List Char → Bool
  | [], needle => needle.isEmpty
  | c :: cs, needle => listStartsWith (c :: cs) needle || listContainsSeq cs needle

/-- The JS String.prototype.includes substring test. -/
def jsIncludes (s sub : String) : Bool :=
  listContainsSeq s.data sub.data

/-- Value of a decimal digit character, if it is one. -/
def digitValue10 (c : Char) : Option Nat :=
  if '0' ≤ c ∧ c ≤ '9' then some (c.toNat - '0'.toNat) else none

/-- Value of a hexadecimal digit character, if it is one. -/
def digitValue16 (c : Char) : Option Nat :=
  if '0' ≤ c ∧ c ≤ '9' then some (c.toNat - '0'.toNat)
  else if 'a' ≤ c ∧ c ≤ 'f' then some (10 + (c.toNat - 'a'.toNat))
  else if 'A' ≤ c ∧ c ≤ 'F' then some (10 + (c.toNat - 'A'.toNat))
  else none

/-- Digit value at the radix used by parseInt (10, or 16 after 0x). -/
def jsDigitValue (radix : Nat) (c : Char) : Option Nat :=
  if radix == 16 then digitValue16 c else digitValue10 c

/-- Accumulate the longest prefix of digits at the given radix. -/
def parseDigitsAux (radix : Nat) : List Char → Nat → Nat
  | [], acc => acc
  | c :: cs, acc =>
    match jsDigitValue radix c with
    | some d => parseDigitsAux radix cs (acc * radix + d)
    | none => acc

/-- Parse the digit part after sign and radix handling; NaN if there is
no leading digit. -/
def parseIntDigits (radix : Nat) (sign : Int) (cs : List Char) : JSNum :=
  match cs with
  | [] => JSNum.nan
  | c :: _ =>
    match jsDigitValue radix c with
    | none => JSNum.nan
    | some _ => JSNum.int (sign * Int.ofNat (parseDigitsAux radix cs 0))

/-- The JS parseInt function applied to a string with no radix argument:
leading whitespace is skipped, an optional sign is read, an 0x or 0X
prefix selects radix 16, and the longest prefix of digits is converted;
the result is NaN when no digit is found. -/
def parseInt (s : String) : JSNum :=
  let cs := s.data.dropWhile jsIsWhitespace
  match cs with
  | '-' :: t => parseIntSigned (-1) t
  | '+' :: t => parseIntSigned 1 t
  | _ => parseIntSigned 1 cs
where
  parseIntSigned (sign : Int) : List Char → JSNum
    | '0' :: 'x' :: t => parseIntDigits 16 sign t
    | '0' :: 'X' :: t => parseIntDigits 16 sign t
    | cs => parseIntDigits 10 sign cs

/-- The room-id regular expression test from index.js line 165:
the string matches the four-decimal-digit pattern anchored at both ends. -/
def isFourDigits (s : String) : Bool :=
  s.data.length == 4 && s.data.all Char.isDigit

/-- The raw lobby form state read by startGame from the DOM. -/
structure Form where
  numberInput : String
  roomID : String
  customMatchboxChecked : Bool
  matchboxServerURL : String
  customICEChecked : Bool
  iceServerURL : String
  iceServerUsername : String
  iceServerCredential : String
deriving DecidableEq, Repr

/-- The six values passed to the wasm start_game entry point at
index.js line 238, in call order. -/
structure GameStartCall where
  number_of_players : JSNum
  room_id : String
  matchbox_server_url : String
  ice_server_url : String
  turn_server_username : String
  turn_server_credential : String
deriving DecidableEq, Repr

/-- Observable effects performed by the startGame handler, in order. -/
inductive Effect where
  | alert (message : String)
  | consoleLog (message : String)
  | removeButtonBox
  | unhideGameContainer
  | requestFullscreen
  | greyFullscreenButton
  | removeControls
  | setCanvasContainerFullHeight
  | updateCanvasContainerSize
  | focusCanvas
  | callStartGame (c : GameStartCall)
deriving DecidableEq, Repr

/-- Alert shown when the player count check fails (index.js line 160). -/
def playerCountAlertMsg : String := "Please enter a player count between 2 and 8."

/-- Alert shown when the room-id check fails (index.js line 166). -/
def roomIdAlertMsg : String := "Invalid room ID."

/-- Alert shown when the Matchbox URL is blank (index.js line 178). -/
def matchboxAlertMsg : String := "Please enter a Matchbox server URL."

/-- Alert shown when the ICE URL is blank (index.js line 190). -/
def iceAlertMsg : String := "Please enter a STUN/TURN server URL."

/-- The player count validation condition of index.js line 159:
the check fails when number_of_players < 2 or number_of_players > 8. -/
def playerCountCheckFails (n : JSNum) : Bool :=
  jsLt n 2 || jsGt n 8

/-- The room-id validation of index.js lines 164 to 168: the check
fails when the trimmed value is nonempty and the raw value does not
match the four-digit pattern. -/
def roomCheckFails (r : String) : Bool :=
  (jsTrim r != "") && !(isFourDigits r)

/-- The Matchbox override validation of index.js lines 174 to 180: the
check fails when the toggle is on and the URL field is blank after
trimming. -/
def matchboxCheckFails (f : Form) : Bool :=
  f.customMatchboxChecked && (jsTrim f.matchboxServerURL == "")

/-- The ICE override validation of index.js lines 184 to 192: the check
fails when the toggle is on and the URL field is blank after trimming. -/
def iceCheckFails (f : Form) : Bool :=
  f.customICEChecked && (jsTrim f.iceServerURL == "")

/-- The six values handed to start_game once every check has passed,
assembled exactly as the local variables of startGame are at line 238:
the parsed player count; the room id, replaced by the quick_join
sentinel when the field was blank; the raw Matchbox URL when its toggle
is on, else the empty string; and the three raw ICE fields when their
toggle is on, else empty strings. -/
def mkGameStartCall (f : Form) : GameStartCall :=
  { number_of_players := parseInt f.numberInput
  , room_id := if jsTrim f.roomID != "" then f.roomID else "quick_join"
  , matchbox_server_url := if f.customMatchboxChecked then f.matchboxServerURL else ""
  , ice_server_url := if f.customICEChecked then f.iceServerURL else ""
  , turn_server_username := if f.customICEChecked then f.iceServerUsername else ""
  , turn_server_credential := if f.customICEChecked then f.iceServerCredential else "" }

/-- The effects of startGame after all validation has passed, in source
order (index.js lines 195 to 238): the console logs, the lobby and game
container transitions, the device-dependent fullscreen or controls
handling, the canvas resize and focus, and the start_game call. -/
def successEffects (isTouchDevice fullscreenEnabled : Bool) (f : Form) : List Effect :=
  let c := mkGameStartCall f
  [Effect.consoleLog ("Number of players: " ++ jsNumToString c.number_of_players),
   Effect.consoleLog ("Room ID: " ++ c.room_id)] ++
  (if f.customMatchboxChecked then
     [Effect.consoleLog ("Matchbox server URL: " ++ c.matchbox_server_url)]
   else []) ++
  (if f.customICEChecked then
     [Effect.consoleLog ("STUN/TURN server URL: " ++ c.ice_server_url),
      Effect.consoleLog ("TURN server username: " ++ c.turn_server_username),
      Effect.consoleLog ("TURN server credential: " ++ c.turn_server_credential)]
   else []) ++
  [Effect.removeButtonBox, Effect.unhideGameContainer] ++
  (if isTouchDevice then
     (if fullscreenEnabled then [Effect.requestFullscreen]
      else [Effect.greyFullscreenButton])
   else [Effect.removeControls, Effect.setCanvasContainerFullHeight]) ++
  [Effect.updateCanvasContainerSize, Effect.focusCanvas,
   Effect.callStartGame c]

/-- The startGame handler of index.js lines 148 to 239 as a pure
function from the form state (and the device predicates it reads) to
the ordered list of effects it performs: each validation failure alerts
and returns immediately, and only when all four checks pass do the
visible transitions and the start_game call happen. -/
def startGame (isTouchDevice fullscreenEnabled : Bool) (f : Form) : List Effect :=
  if playerCountCheckFails (parseInt f.numberInput) then
    [Effect.alert playerCountAlertMsg]
  else if roomCheckFails f.roomID then
    [Effect.alert roomIdAlertMsg]
  else if matchboxCheckFails f then
    [Effect.alert matchboxAlertMsg]
  else if iceCheckFails f then
    [Effect.alert iceAlertMsg]
  else
    successEffects isTouchDevice fullscreenEnabled f

/-- Outcome of the run() call inside start_wasm: it either returns or
raises a signal carrying a message. -/
inductive RunOutcome where
  | returned
  | raised (message : String)
deriving DecidableEq, Repr

/-- The substring identifying the benign winit control-flow exception
(index.js line 12). -/
def winitBenignMessageFragment : String := "This isn\x27t actually an error!"

/-- Observable effects of the start_wasm error handler. -/
inductive WasmEffect where
  | consoleError (message : String)
  | removeButtonBox
  | removeGameContainer
  | unhideErrorScreen
deriving DecidableEq, Repr

/-- The try/catch around run() in start_wasm (index.js lines 8 to 18):
a signal whose message contains the benign fragment is swallowed; any
other signal is logged and the page transitions to the error view. -/
def start_wasm_handleRun : RunOutcome → List WasmEffect
  | RunOutcome.returned => []
  | RunOutcome.raised m =>
    if jsIncludes m winitBenignMessageFragment then []
    else
      [WasmEffect.consoleError m, WasmEffect.removeButtonBox,
       WasmEffect.removeGameContainer, WasmEffect.unhideErrorScreen]

/-- A JS value at the boundary of the wasm call: a number or a string. -/
inductive JSValue where
  | num (n : JSNum)
  | str (s : String)
deriving DecidableEq, Repr

/-- The argument list of the start_game call at index.js line 238, in
the order the six values are passed. -/
def start_game_callArgs (c : GameStartCall) : List JSValue :=
  [JSValue.num c.number_of_players, JSValue.str c.room_id,
   JSValue.str c.matchbox_server_url, JSValue.str c.ice_server_url,
   JSValue.str c.turn_server_username, JSValue.str c.turn_server_credential]

/-- A TypeScript parameter type in the generated declaration file. -/
inductive TSType where
  | string
  | number
deriving DecidableEq, Repr

/-- The declared parameter list of the start_game entry point, from the
generated binding declaration file (src/unnamed/part_000, lines 6 to
14): two parameters, the signaling server address then the number of
players. -/
def start_game_declaredParams : List (String × TSType) :=
  [("signal_server_address", TSType.string),
   ("number_of_players", TSType.number)]

/-- Is a JS number an integer within the closed interval from lo to hi? -/
def JSNum.isIntInRange (n : JSNum) (lo hi : Int) : Bool :=
  match n with
  | JSNum.nan => false
  | JSNum.int p => lo ≤ p && p ≤ hi

/-- First failing validation check in the fixed order player count,
room id, signaling override, relay override, with its alert message. -/
def firstFailureMessage (f : Form) : Option String :=
  if playerCountCheckFails (parseInt f.numberInput) then some playerCountAlertMsg
  else if roomCheckFails f.roomID then some roomIdAlertMsg
  else if matchboxCheckFails f then some matchboxAlertMsg
  else if iceCheckFails f then some iceAlertMsg
  else none

/-- Does some validation check of startGame fail on this form state? -/
def validationFails (f : Form) : Bool :=
  playerCountCheckFails (parseInt f.numberInput) || roomCheckFails f.roomID ||
    matchboxCheckFails f || iceCheckFails f

/-- A form state with a valid player count, a blank room id and both
override toggles off. -/
def quickJoinForm : Form :=
  { numberInput := "3", roomID := "", customMatchboxChecked := false,
    matchboxServerURL := "", customICEChecked := false, iceServerURL := "",
    iceServerUsername := "", iceServerCredential := "" }

/-- A form state whose player-count field holds 1, below the accepted
range. -/
def countOneForm : Form :=
  { quickJoinForm with numberInput := "1" }

/-- A form state whose player-count field is blank: parseInt yields NaN
on it. -/
def blankCountForm : Form :=
  { quickJoinForm with numberInput := "" }

/-- A form state with a malformed non-blank room id. -/
def invalidRoomForm : Form :=
  { quickJoinForm with roomID := "12a4" }

/-- A form state with a well-formed four-digit room id. -/
def fourDigitRoomForm : Form :=
  { quickJoinForm with roomID := "1234" }

/-- A form state in which every one of the four checks fails at once. -/
def allInvalidForm : Form :=
  { numberInput := "1", roomID := "abcd", customMatchboxChecked := true,
    matchboxServerURL := "  ", customICEChecked := true, iceServerURL := " ",
    iceServerUsername := "user", iceServerCredential := "pass" }

/-- A form state with the signaling override on and a whitespace-only
URL field. -/
def matchboxBlankForm : Form :=
  { quickJoinForm with customMatchboxChecked := true, matchboxServerURL := "  " }

/-- A form state with the relay override on, a whitespace-only relay URL
and populated username and credential fields. -/
def iceBlankForm : Form :=
  { quickJoinForm with
    customICEChecked := true
    iceServerURL := " "
    iceServerUsername := "user"
    iceServerCredential := "pass" }

/-- A form state with both overrides on and URLs padded with
surrounding whitespace. -/
def paddedUrlsForm : Form :=
  { quickJoinForm with
    customMatchboxChecked := true
    matchboxServerURL := " ws://example.com "
    customICEChecked := true
    iceServerURL := " turn:example.org " }

/-- The values that startGame passes to start_game on the padded-URL
form state. -/
def paddedUrlsCall : GameStartCall :=
  { number_of_players := JSNum.int 3, room_id := "quick_join",
    matchbox_server_url := " ws://example.com ",
    ice_server_url := " turn:example.org ",
    turn_server_username := "", turn_server_credential := "" }

/-- The values that startGame passes to start_game on the blank
player-count form state: a NaN player count reaches the runtime. -/
def blankCountCall : GameStartCall :=
  { number_of_players := JSNum.nan, room_id := "quick_join",
    matchbox_server_url := "", ice_server_url := "",
    turn_server_username := "", turn_server_credential := "" }

/-! ### Helper lemmas -/

lemma dropWhile_eq_self_of_not (p : Char → Bool) (cs : List Char)
    (h : ∀ c ∈ cs, p c = false) : cs.dropWhile p = cs := by
  cases cs with
  | nil => rfl
  | cons c t => simp [List.dropWhile_cons, h c (by simp)]

lemma jsTrimChars_eq_self (cs : List Char)
    (h : ∀ c ∈ cs, jsIsWhitespace c = false) : jsTrimChars cs = cs := by
  unfold jsTrimChars
  rw [dropWhile_eq_self_of_not _ _ h,
    dropWhile_eq_self_of_not _ _ (by intro c hc; exact h c (List.mem_reverse.mp hc)),
    List.reverse_reverse]

lemma jsIsWhitespace_eq_false_of_isDigit (c : Char) (hd : c.isDigit = true) :
    jsIsWhitespace c = false := by
  have h : '0' ≤ c ∧ c ≤ '9' := by
    unfold Char.isDigit at hd
    exact ⟨of_decide_eq_true (Bool.and_eq_true _ _ |>.mp hd).1,
           of_decide_eq_true (Bool.and_eq_true _ _ |>.mp hd).2⟩
  obtain ⟨h1, h2⟩ := h
  simp only [jsIsWhitespace, Bool.or_eq_false_iff, Bool.and_eq_false_iff,
    decide_eq_false_iff_not]
  refine ⟨⟨⟨⟨⟨⟨⟨⟨⟨⟨⟨⟨⟨⟨?_, ?_⟩, ?_⟩, ?_⟩, ?_⟩, ?_⟩, ?_⟩, ?_⟩, ?_⟩, ?_⟩,
    ?_⟩, ?_⟩, ?_⟩, ?_⟩, ?_⟩
  all_goals try (rintro rfl; first
    | exact absurd h1 (by decide)
    | exact absurd h2 (by decide))
  left
  intro ha
  exact absurd (le_trans ha h2) (by decide)

lemma jsTrim_eq_self_of_isFourDigits (r : String) (h : isFourDigits r = true) :
    jsTrim r = r := by
  obtain ⟨d⟩ := r
  simp only [isFourDigits, Bool.and_eq_true, List.all_eq_true] at h
  unfold jsTrim
  rw [jsTrimChars_eq_self]
  intro c hc
  exact jsIsWhitespace_eq_false_of_isDigit c (h.2 c hc)

lemma jsTrim_ne_empty_of_isFourDigits (r : String) (h : isFourDigits r = true) :
    jsTrim r ≠ "" := by
  rw [jsTrim_eq_self_of_isFourDigits r h]
  intro he
  subst he
  exact absurd h (by decide)

lemma roomCheckFails_eq_false_iff (r : String) :
    roomCheckFails r = false ↔ (jsTrim r = "" ∨ isFourDigits r = true) := by
  simp only [roomCheckFails, Bool.and_eq_false_iff, bne_eq_false_iff_eq,
    Bool.not_eq_false']

lemma mem_callStartGame_successEffects (t fs : Bool) (f : Form) (c : GameStartCall) :
    Effect.callStartGame c ∈ successEffects t fs f ↔ c = mkGameStartCall f := by
  unfold successEffects
  cases t <;> cases fs <;>
    by_cases hm : f.customMatchboxChecked <;>
    by_cases hi : f.customICEChecked <;>
    simp [hm, hi]

lemma alert_not_mem_successEffects (t fs : Bool) (f : Form) (m : String) :
    Effect.alert m ∉ successEffects t fs f := by
  unfold successEffects
  cases t <;> cases fs <;>
    by_cases hm : f.customMatchboxChecked <;>
    by_cases hi : f.customICEChecked <;>
    simp [hm, hi]

lemma callStartGame_mem_startGame_iff (t fs : Bool) (f : Form) (c : GameStartCall) :
    Effect.callStartGame c ∈ startGame t fs f ↔
      (validationFails f = false ∧ c = mkGameStartCall f) := by
  unfold startGame validationFails
  by_cases h1 : playerCountCheckFails (parseInt f.numberInput) <;>
    by_cases h2 : roomCheckFails f.roomID <;>
    by_cases h3 : matchboxCheckFails f <;>
    by_cases h4 : iceCheckFails f <;>
    simp [h1, h2, h3, h4, mem_callStartGame_successEffects]

/-! ### Claim theorems -/

/-- C1: the configuration handed to the runtime session-start entry
point is exactly six positional values headed by the numeric player
count, but the bundled declaration of start_game has two parameters
headed by the signaling server address, so the call does not match the
declared arity and parameter order of the entry point. -/
theorem c1_start_game_call_vs_declared_signature (c : GameStartCall) :
    (start_game_callArgs c).length = 6 ∧
    start_game_declaredParams.length = 2 ∧
    (start_game_callArgs c).head? = some (JSValue.num c.number_of_players) ∧
    start_game_declaredParams.head? =
      some ("signal_server_address", TSType.string) := by
  refine ⟨rfl, rfl, rfl, rfl⟩

/-- C2: for every integer p given as the player-count input, the
player-count validation succeeds iff 2 ≤ p ≤ 8, and when it fails the
handler stops with the alert "Please enter a player count between 2
and 8." as its only effect. -/
theorem c2_player_count_validation (p : Int) (t fs : Bool) (f : Form)
    (hp : parseInt f.numberInput = JSNum.int p) :
    (playerCountCheckFails (JSNum.int p) = false ↔ 2 ≤ p ∧ p ≤ 8) ∧
    (playerCountCheckFails (JSNum.int p) = true →
      startGame t fs f = [Effect.alert playerCountAlertMsg]) := by
  constructor
  · simp only [playerCountCheckFails, jsLt, jsGt, Bool.or_eq_false_iff,
      decide_eq_false_iff_not]
    omega
  · intro hfail
    unfold startGame
    rw [hp, hfail]
    rfl

/-- C2 witness: the input 1 is rejected with the range alert. -/
theorem c2_player_count_validation_witness :
    startGame false false countOneForm = [Effect.alert playerCountAlertMsg] :=
  (c2_player_count_validation 1 false false countOneForm (by decide)).2 (by decide)

/-- C3: with a blank player-count field, parseInt produces NaN, all
validation passes, and start_game is invoked with a NaN player count,
which is not an integer in the range 2 to 8 — the invariant the claim
states fails on the code. -/
theorem c3_nan_player_count_reaches_start_game :
    parseInt blankCountForm.numberInput = JSNum.nan ∧
    Effect.callStartGame blankCountCall ∈ startGame false false blankCountForm ∧
    JSNum.isIntInRange blankCountCall.number_of_players 2 8 = false := by
  refine ⟨rfl, by decide, rfl⟩

/-- C4: for every room id string, validation succeeds iff its trim is
empty or it is exactly four decimal digits; a blank field normalizes to
the quick_join sentinel, a four-digit value is forwarded verbatim, and
any other non-empty value stops the handler with the alert
"Invalid room ID." as its only effect. -/
theorem c4_room_id_validation (t fs : Bool) (f : Form)
    (hp : playerCountCheckFails (parseInt f.numberInput) = false) :
    (roomCheckFails f.roomID = false ↔
      (jsTrim f.roomID = "" ∨ isFourDigits f.roomID = true)) ∧
    (roomCheckFails f.roomID = true →
      startGame t fs f = [Effect.alert roomIdAlertMsg]) ∧
    (jsTrim f.roomID = "" →
      ∀ c, Effect.callStartGame c ∈ startGame t fs f →
        c.room_id = "quick_join") ∧
    (isFourDigits f.roomID = true →
      ∀ c, Effect.callStartGame c ∈ startGame t fs f →
        c.room_id = f.roomID) := by
  refine ⟨roomCheckFails_eq_false_iff f.roomID, ?_, ?_, ?_⟩
  · intro hfail
    unfold startGame
    rw [hp, hfail]
    rfl
  · intro hblank c hc
    rw [callStartGame_mem_startGame_iff] at hc
    obtain ⟨-, rfl⟩ := hc
    simp [mkGameStartCall, hblank]
  · intro hfour c hc
    rw [callStartGame_mem_startGame_iff] at hc
    obtain ⟨-, rfl⟩ := hc
    have hne := jsTrim_ne_empty_of_isFourDigits f.roomID hfour
    simp [mkGameStartCall, hne]

/-- C4 witness: the malformed room id 12a4 is rejected with the
invalid-room alert. -/
theorem c4_room_id_validation_witness :
    startGame false false invalidRoomForm = [Effect.alert roomIdAlertMsg] :=
  (c4_room_id_validation false false invalidRoomForm (by decide)).2.1 (by decide)

/-- C5: a signal from run() whose message contains the benign
control-flow fragment is swallowed with no effect at all; any other
signal is logged to the diagnostic channel, the lobby and game
containers are removed, and the error panel is revealed. -/
theorem c5_run_signal_handling (m : String) :
    (jsIncludes m winitBenignMessageFragment = true →
      start_wasm_handleRun (RunOutcome.raised m) = []) ∧
    (jsIncludes m winitBenignMessageFragment = false →
      start_wasm_handleRun (RunOutcome.raised m) =
        [WasmEffect.consoleError m, WasmEffect.removeButtonBox,
         WasmEffect.removeGameContainer, WasmEffect.unhideErrorScreen]) := by
  constructor <;> intro h <;> simp [start_wasm_handleRun, h]

/-- C5 witness: the benign message itself is swallowed, and an
unrelated message triggers the logged error transition. -/
theorem c5_run_signal_handling_witness :
    start_wasm_handleRun (RunOutcome.raised winitBenignMessageFragment) = [] ∧
    start_wasm_handleRun (RunOutcome.raised "boom") =
      [WasmEffect.consoleError "boom", WasmEffect.removeButtonBox,
       WasmEffect.removeGameContainer, WasmEffect.unhideErrorScreen] :=
  ⟨(c5_run_signal_handling winitBenignMessageFragment).1 (by decide),
   (c5_run_signal_handling "boom").2 (by decide)⟩

/-- C6: when any validation check fails, the handler's only effect is a
single alert: no lobby or game container mutation happens and
start_game is never invoked on that attempt. -/
theorem c6_no_side_effects_on_failure (t fs : Bool) (f : Form)
    (h : validationFails f = true) :
    (∃ m, startGame t fs f = [Effect.alert m]) ∧
    (∀ c, Effect.callStartGame c ∉ startGame t fs f) ∧
    Effect.removeButtonBox ∉ startGame t fs f ∧
    Effect.unhideGameContainer ∉ startGame t fs f := by
  have htrace : ∃ m, startGame t fs f = [Effect.alert m] := by
    unfold validationFails at h
    unfold startGame
    by_cases h1 : playerCountCheckFails (parseInt f.numberInput) <;>
      by_cases h2 : roomCheckFails f.roomID <;>
      by_cases h3 : matchboxCheckFails f <;>
      by_cases h4 : iceCheckFails f <;>
      simp [h1, h2, h3, h4] at h ⊢
  obtain ⟨m, hm⟩ := htrace
  rw [hm]
  exact ⟨⟨m, rfl⟩, fun c => by simp, by simp, by simp⟩

/-- C6 witness: on the rejected player count 1 the lobby remains in
place. -/
theorem c6_no_side_effects_on_failure_witness :
    Effect.removeButtonBox ∉ startGame false false countOneForm :=
  (c6_no_side_effects_on_failure false false countOneForm (by decide)).2.2.1

/-- C7: whenever any checks fail, exactly one alert is emitted, and it
is the message of the first failing check in the fixed order player
count, room id, signaling override, relay override; when no check
fails, no alert is emitted at all. -/
theorem c7_fail_fast_first_error (t fs : Bool) (f : Form) :
    (∀ m, firstFailureMessage f = some m →
      startGame t fs f = [Effect.alert m]) ∧
    (firstFailureMessage f = none →
      ∀ m, Effect.alert m ∉ startGame t fs f) := by
  unfold firstFailureMessage startGame
  by_cases h1 : playerCountCheckFails (parseInt f.numberInput) <;>
    by_cases h2 : roomCheckFails f.roomID <;>
    by_cases h3 : matchboxCheckFails f <;>
    by_cases h4 : iceCheckFails f <;>
    simp [h1, h2, h3, h4, alert_not_mem_successEffects]

/-- C7 witness: with all four fields invalid at once, the reported
error is the player-count alert, the first in the fixed order. -/
theorem c7_fail_fast_first_error_witness :
    startGame false false allInvalidForm = [Effect.alert playerCountAlertMsg] :=
  (c7_fail_fast_first_error false false allInvalidForm).1
    playerCountAlertMsg (by decide)

/-- C8: with the signaling toggle off the signaling check always passes
and the configuration's signaling URL is the empty string regardless of
the field contents; with the toggle on the check fails exactly when the
field is blank after trimming, in which case the handler stops with the
Matchbox alert. -/
theorem c8_signaling_override (t fs : Bool) (f : Form) :
    (f.customMatchboxChecked = false →
      matchboxCheckFails f = false ∧
      ∀ c, Effect.callStartGame c ∈ startGame t fs f →
        c.matchbox_server_url = "") ∧
    (f.customMatchboxChecked = true →
      ((matchboxCheckFails f = true ↔ jsTrim f.matchboxServerURL = "") ∧
       (playerCountCheckFails (parseInt f.numberInput) = false →
        roomCheckFails f.roomID = false →
        jsTrim f.matchboxServerURL = "" →
        startGame t fs f = [Effect.alert matchboxAlertMsg]))) := by
  constructor
  · intro hm
    refine ⟨by simp [matchboxCheckFails, hm], ?_⟩
    intro c hc
    rw [callStartGame_mem_startGame_iff] at hc
    obtain ⟨-, rfl⟩ := hc
    simp [mkGameStartCall, hm]
  · intro hm
    constructor
    · simp [matchboxCheckFails, hm]
    · intro hp hr hb
      unfold startGame
      have h3 : matchboxCheckFails f = true := by
        simp [matchboxCheckFails, hm, hb]
      rw [hp, hr, h3]
      rfl

/-- C8 witness: signaling toggle on with a whitespace-only URL field is
rejected with the Matchbox alert. -/
theorem c8_signaling_override_witness :
    startGame false false matchboxBlankForm = [Effect.alert matchboxAlertMsg] :=
  ((c8_signaling_override false false matchboxBlankForm).2 (by decide)).2
    (by decide) (by decide) (by decide)

/-- C9: with the relay toggle on and a blank relay URL the handler
stops with the STUN/TURN alert whatever the username and credential
hold; with the toggle on and the URL accepted, the three relay fields
are forwarded verbatim; with the toggle off all three are empty
strings in the configuration. -/
theorem c9_relay_override (t fs : Bool) (f : Form) :
    (f.customICEChecked = true →
      jsTrim f.iceServerURL = "" →
      playerCountCheckFails (parseInt f.numberInput) = false →
      roomCheckFails f.roomID = false →
      matchboxCheckFails f = false →
      startGame t fs f = [Effect.alert iceAlertMsg]) ∧
    (f.customICEChecked = true →
      ∀ c, Effect.callStartGame c ∈ startGame t fs f →
        c.ice_server_url = f.iceServerURL ∧
        c.turn_server_username = f.iceServerUsername ∧
        c.turn_server_credential = f.iceServerCredential) ∧
    (f.customICEChecked = false →
      ∀ c, Effect.callStartGame c ∈ startGame t fs f →
        c.ice_server_url = "" ∧ c.turn_server_username = "" ∧
        c.turn_server_credential = "") := by
  refine ⟨?_, ?_, ?_⟩
  · intro hi hb hp hr hm
    unfold startGame
    have h4 : iceCheckFails f = true := by simp [iceCheckFails, hi, hb]
    rw [hp, hr, hm, h4]
    rfl
  · intro hi c hc
    rw [callStartGame_mem_startGame_iff] at hc
    obtain ⟨-, rfl⟩ := hc
    simp [mkGameStartCall, hi]
  · intro hi c hc
    rw [callStartGame_mem_startGame_iff] at hc
    obtain ⟨-, rfl⟩ := hc
    simp [mkGameStartCall, hi]

/-- C9 witness: relay toggle on with a whitespace-only URL is rejected
with the STUN/TURN alert even though username and credential are
populated. -/
theorem c9_relay_override_witness :
    startGame false false iceBlankForm = [Effect.alert iceAlertMsg] :=
  (c9_relay_override false false iceBlankForm).1 (by decide) (by decide)
    (by decide) (by decide) (by decide)

/-- C10: whenever start_game is reached with an override toggle on, the
URL placed in the configuration is the raw field value, untrimmed;
trimming is used only to decide blankness. -/
theorem c10_override_urls_forwarded_untrimmed (t fs : Bool) (f : Form)
    (c : GameStartCall) (h : Effect.callStartGame c ∈ startGame t fs f) :
    (f.customMatchboxChecked = true →
      c.matchbox_server_url = f.matchboxServerURL) ∧
    (f.customICEChecked = true → c.ice_server_url = f.iceServerURL) := by
  rw [callStartGame_mem_startGame_iff] at h
  obtain ⟨-, rfl⟩ := h
  constructor <;> intro h <;> simp [mkGameStartCall, h]

/-- C10 witness: URLs padded with surrounding whitespace pass
validation and reach start_game with the whitespace intact. -/
theorem c10_override_urls_forwarded_untrimmed_witness :
    paddedUrlsCall.matchbox_server_url = " ws://example.com " ∧
    paddedUrlsCall.ice_server_url = " turn:example.org " :=
  ⟨(c10_override_urls_forwarded_untrimmed false false paddedUrlsForm
      paddedUrlsCall (by decide)).1 (by decide),
   (c10_override_urls_forwarded_untrimmed false false paddedUrlsForm
      paddedUrlsCall (by decide)).2 (by decide)⟩
